import Mathlib

/-!
Shallow embedding of the swap-execution core of a Solana trading bot:
amount conversion (src/utils.py), slippage validation (src/utils.py),
route quoting and swap execution (src/services/jupiter_service.py),
raw-transaction submission with retries (src/services/solana_client.py),
SPL-token transfer (src/services/solana_service.py) and private-key
decryption (src/services/utils.py).  Network calls are modelled as
oracle parameters; machine integers are Nat/Int; Python floats entering
arithmetic are modelled as rationals; fallible code returns Option or
Except, or an explicit result variant when Python can also fall through
and return None.
-/

/-- Python int() truncation toward zero of a rational, as used by
int(value) on a nonnegative product and by int(float) conversions. -/
def ratTrunc (q : ℚ) : Int := Int.tdiv q.num (q.den : Int)

/-- Substring containment, modelling the Python `in` operator on str. -/
def strContains (s pat : String) : Bool := decide (pat.toList <:+: s.toList)

/-- From src/utils.py to_lamports: Decimal conversion of the amount, return 0
for any amount <= 0, otherwise int(value * 10 ** decimals), which truncates;
for a positive value truncation is the floor. -/
def to_lamports (amount : ℚ) (decimals : Nat := 9) : Int :=
  if amount ≤ 0 then 0 else ⌊amount * 10 ^ decimals⌋

/-- From src/utils.py from_lamports: raises ValueError (none) for a negative
input, otherwise Decimal(lamports) / Decimal(10 ** decimals). -/
def from_lamports (lamports : Int) (decimals : Nat := 9) : Option ℚ :=
  if lamports < 0 then none else some ((lamports : ℚ) / 10 ^ decimals)

/-- From src/utils.py: MIN_SLIPPAGE = 0.1. -/
def MIN_SLIPPAGE : ℚ := 1 / 10

/-- From src/utils.py: MAX_SLIPPAGE = 10.0. -/
def MAX_SLIPPAGE : ℚ := 10

/-- From src/utils.py: DEFAULT_SLIPPAGE = 1.0. -/
def DEFAULT_SLIPPAGE : ℚ := 1

/-- The message of the ValueError raised by validate_slippage for an
out-of-range value (the re-raised message wrapping the inner one, with the
numeric constants rendered as Python prints them). -/
def slippageRangeMsg : String :=
  "Неверное значение slippage: Slippage должен быть между 0.1% и 10.0%"

/-- From src/utils.py validate_slippage: default when none, otherwise range
check against [MIN_SLIPPAGE, MAX_SLIPPAGE]; out of range raises ValueError. -/
def validate_slippage (slippage : Option ℚ) : Except String ℚ :=
  match slippage with
  | none => .ok DEFAULT_SLIPPAGE
  | some s =>
    if s < MIN_SLIPPAGE ∨ s > MAX_SLIPPAGE then .error slippageRangeMsg
    else .ok s

/-- What JupiterService.get_best_route does before returning: either it raises
a ValueError on the output mint check (before any network traffic), or it
issues the aggregator HTTP request carrying slippageBps = int(slippage*100). -/
inductive QuoteAction where
  | validationError (msg : String)
  | httpRequest (slippageBps : Int)
  deriving DecidableEq, Repr

/-- From src/services/jupiter_service.py get_best_route (lines 67-131): the
only pre-network validation is PublicKey(output_mint); the slippage argument
is converted straight to slippageBps in the request parameters, with no range
check.  The PublicKey parse outcome is the oracle outputMintValid. -/
def get_best_route (outputMintValid : Bool) (slippage : ℚ) : QuoteAction :=
  if outputMintValid = false then
    .validationError "Неверный формат адреса токена"
  else
    .httpRequest (ratTrunc (slippage * 100))

/-- From src/services/utils.py decrypt_private_key: cipherResult is the
outcome of Fernet decryption (none when the cipher raises, including a
missing ENCRYPTION_KEY).  On failure the input is returned unchanged when its
length is in [40, 90], otherwise the exception propagates (none). -/
def decrypt_private_key (cipherResult : Option String)
    (encrypted_key : String) : Option String :=
  match cipherResult with
  | some r => some r
  | none =>
    if 40 ≤ encrypted_key.length ∧ encrypted_key.length ≤ 90 then
      some encrypted_key
    else
      none

/-- Outcome of one send_raw_transaction call inside
send_transaction_with_retry: success with a signature, an exception whose
text contains "429", or any other exception. -/
inductive SendAttemptOutcome where
  | ok (sig : String)
  | rateLimited
  | otherError (msg : String)
  deriving DecidableEq, Repr

/-- How send_transaction_with_retry can leave its caller: with a signature,
with a raised exception, or by falling off the end of the for loop and
implicitly returning None. -/
inductive SendResult where
  | sig (s : String)
  | raised (msg : String)
  | noneReturn
  deriving DecidableEq, Repr

/-- A run of send_transaction_with_retry: its result plus the sequence of
asyncio.sleep durations (in seconds) it performed. -/
structure SendRun where
  result : SendResult
  sleeps : List Nat
  deriving DecidableEq, Repr

/-- The message of the exception raised by send_transaction_with_retry after
exhausting non-rate-limit retries. -/
def submitFailMsg (maxRetries : Nat) : String :=
  "❌ Не удалось отправить транзакцию после " ++ toString maxRetries ++ " попыток"

/-- Loop body of send_transaction_with_retry, indexed by the current attempt
number and the remaining iterations.  A "429" error sleeps 2*(attempt+1)
seconds and continues even on the last attempt; any other error raises on the
last attempt and otherwise sleeps 1 second. -/
def sendTransactionGo (resp : Nat → SendAttemptOutcome) (maxRetries : Nat) :
    Nat → Nat → SendRun
  | _, 0 => ⟨.noneReturn, []⟩
  | attempt, remaining + 1 =>
    match resp attempt with
    | .ok s => ⟨.sig s, []⟩
    | .rateLimited =>
      let t := sendTransactionGo resp maxRetries (attempt + 1) remaining
      ⟨t.result, 2 * (attempt + 1) :: t.sleeps⟩
    | .otherError _ =>
      if remaining = 0 then ⟨.raised (submitFailMsg maxRetries), []⟩
      else
        let t := sendTransactionGo resp maxRetries (attempt + 1) remaining
        ⟨t.result, 1 :: t.sleeps⟩

/-- From src/services/solana_client.py send_transaction_with_retry
(lines 11-53): for attempt in range(max_retries), modelled with the
per-attempt RPC outcome supplied by the oracle resp. -/
def send_transaction_with_retry (resp : Nat → SendAttemptOutcome)
    (max_retries : Nat := 3) : SendRun :=
  sendTransactionGo resp max_retries 0 max_retries

/-- How JupiterService.perform_swap can leave its caller: a signature, a
raised exception, or Python falling off an empty for loop (max_retries = 0)
and returning None. -/
inductive SwapOutcome where
  | sig (s : String)
  | err (msg : String)
  | noneReturn
  deriving DecidableEq, Repr

/-- A run of perform_swap: how many quote requests, swap-transaction builds
(each build returns a freshly built transaction from the aggregator, which
embeds a fresh blockhash anchor) and submission attempts were made, and the
final outcome. -/
structure SwapTrace where
  quoteCalls : Nat
  buildCalls : Nat
  sendCalls : Nat
  outcome : SwapOutcome
  deriving DecidableEq, Repr

/-- Error message raised by perform_swap when the quote step yields nothing
on the final attempt. -/
def swapQuoteFailMsg : String := "Не удалось получить quote от Jupiter API"

/-- Error message raised by perform_swap when the swap-build step yields
nothing on the final attempt. -/
def swapBuildFailMsg : String := "Не удалось получить транзакцию свопа от Jupiter API"

/-- Error message raised by perform_swap when submission yields nothing on
the final attempt. -/
def swapSendFailMsg : String := "Не удалось отправить транзакцию свопа"

/-- Loop body of perform_swap, indexed by attempt number and remaining
iterations.  Each iteration runs the full quote, build, submit cycle; the
private helpers catch their own exceptions and return None, modelled by the
Option-valued oracles; on a None result the iteration sleeps and retries,
or raises after the final attempt. -/
def performSwapGo (quoteF buildF sendF : Nat → Option String) :
    Nat → Nat → SwapTrace
  | _, 0 => ⟨0, 0, 0, .noneReturn⟩
  | attempt, remaining + 1 =>
    match quoteF attempt with
    | none =>
      if remaining = 0 then ⟨1, 0, 0, .err swapQuoteFailMsg⟩
      else
        let t := performSwapGo quoteF buildF sendF (attempt + 1) remaining
        ⟨t.quoteCalls + 1, t.buildCalls, t.sendCalls, t.outcome⟩
    | some _ =>
      match buildF attempt with
      | none =>
        if remaining = 0 then ⟨1, 1, 0, .err swapBuildFailMsg⟩
        else
          let t := performSwapGo quoteF buildF sendF (attempt + 1) remaining
          ⟨t.quoteCalls + 1, t.buildCalls + 1, t.sendCalls, t.outcome⟩
      | some _ =>
        match sendF attempt with
        | none =>
          if remaining = 0 then ⟨1, 1, 1, .err swapSendFailMsg⟩
          else
            let t := performSwapGo quoteF buildF sendF (attempt + 1) remaining
            ⟨t.quoteCalls + 1, t.buildCalls + 1, t.sendCalls + 1, t.outcome⟩
        | some s => ⟨1, 1, 1, .sig s⟩

/-- From src/services/jupiter_service.py perform_swap (lines 166-272): for
attempt in range(max_retries) (default 2), each attempt calls _get_quote,
_get_swap_transaction and _send_swap_transaction in order, retrying the whole
cycle on a None from any step and raising after the final attempt.  The three
oracles give each attempt-indexed call result. -/
def perform_swap (quoteF buildF sendF : Nat → Option String)
    (max_retries : Nat := 2) : SwapTrace :=
  performSwapGo quoteF buildF sendF 0 max_retries

/-- The process-wide decimals knowledge modelled as explicit state: an
association list from token address to decimals. -/
abbrev DecCache := List (String × Nat)

/-- From src/services/jupiter_service.py get_token_decimals (lines 547-584):
state-passing embedding.  The source keeps no cache at all: every call posts
one getTokenSupply RPC request, returns its decimals on success and the
default 9 on any failure (non-200 status, RPC error object, or exception),
and never reads or writes any per-token state, so the state is returned
unchanged.  Result: (decimals, state after the call, RPC queries made). -/
def get_token_decimals (cache : DecCache) (token : String)
    (rpc : Option Nat) : Nat × DecCache × Nat :=
  match token, rpc with
  | _, some d => (d, cache, 1)
  | _, none => (9, cache, 1)

/-- Instructions added to the single transfer transaction built by
send_spl_token. -/
inductive SplInstr where
  | createAssociatedTokenAccount
  | transferInstr (amountRaw : Int)
  deriving DecidableEq, Repr

/-- From src/services/solana_service.py send_spl_token (lines 427-521):
toAddrValid and mintValid are the PublicKey parse outcomes for the recipient
and the mint (both checked before the first RPC request, get_token_supply);
destExists is whether get_account_info finds the recipient associated token
account.  On an invalid address the exception propagates as an error paired
with the number of network calls made before raising (zero).  Otherwise one
transaction is built: the create-ATA instruction is added first when the
destination account is missing, then the transfer instruction for
int(amount * 10 ** decimals) raw units. -/
def send_spl_token (toAddrValid mintValid : Bool) (decimals : Nat)
    (destExists : Bool) (amount : ℚ) : Except (String × Nat) (List SplInstr) :=
  if toAddrValid = false then .error ("invalid recipient pubkey", 0)
  else if mintValid = false then .error ("invalid mint pubkey", 0)
  else
    let raw := ratTrunc (amount * 10 ^ decimals)
    .ok ((if destExists then [] else [.createAssociatedTokenAccount])
      ++ [.transferInstr raw])

/-- From src/services/jupiter_service.py execute_swap and execute_sell: the
signature post-processing that strips a wrapping Signature(...) from the
string representation of the submission response. -/
def extract_signature (signature : String) : String :=
  if strContains signature "Signature(" then
    (((signature.splitOn "Signature(").getD 1 "").splitOn ")").headD ""
  else signature

/-- From src/services/jupiter_service.py execute_swap (lines 533-545): the
final except handler that maps an exception message to a user-facing string
by substring matching; every branch yields a string starting with ❌. -/
def classify_swap_error (msg : String) : String :=
  if strContains msg "Custom: 1" then
    "❌ Ошибка транзакции: Недостаточная ликвидность или слишком маленькая сумма обмена"
  else if strContains msg "Custom: 6000" then
    "❌ Ошибка транзакции: Слишком высокое проскальзывание"
  else if strContains msg "0x1771" then
    "❌ Ошибка транзакции: Недостаточно средств для выполнения обмена"
  else
    "❌ Ошибка: " ++ msg

/-- From src/services/jupiter_service.py execute_swap (lines 445-545):
route_outputMint and route_inAmount are route.get("outputMint") and
route.get("inAmount") (a missing key or empty string is falsy and raises the
route-format ValueError, which the outer handler classifies); swapResult is
the outcome of the perform_swap call.  On success the returned string is the
Solscan URL of the extracted signature; every failure is classified into a
❌-prefixed message and returned, never raised. -/
def execute_swap (route_outputMint route_inAmount : Option String)
    (swapResult : Except String String) : String :=
  if route_outputMint.getD "" = "" ∨ route_inAmount.getD "" = "" then
    classify_swap_error "❌ Неверный формат route: отсутствуют необходимые параметры"
  else
    match swapResult with
    | .ok signature => "https://solscan.io/tx/" ++ extract_signature signature
    | .error e => classify_swap_error e

/-- The amount argument of execute_sell: a Python int is used verbatim as the
raw amount, a str or float is converted via int(float(amount) * 10 **
decimals), and an unparseable str (or unsupported type) raises ValueError. -/
inductive AmountArg where
  | intAmount (n : Int)
  | numAmount (q : ℚ)
  | badAmount
  deriving DecidableEq, Repr

/-- The raw-amount conversion block of execute_sell (lines 673-695). -/
def rawAmountOf (amount : AmountArg) (decimals : Nat) : Option Int :=
  match amount with
  | .intAmount n => some n
  | .numAmount q => some (ratTrunc (q * 10 ^ decimals))
  | .badAmount => none

/-- From execute_sell (line 710): min_balance = int(0.01 * (10 **
token_decimals)); the float product rounds to the exact value
10 ^ decimals / 100 for every realistic decimals count, so the buffer is the
floor of one hundredth of a whole token in raw units. -/
def minBalanceRaw (decimals : Nat) : Nat := 10 ^ decimals / 100

/-- A run of execute_sell: the returned chat message, how many quote requests
(get_best_route calls) were made, and the raw amount handed to the quoter
when it was invoked.  The message constants keep the fixed skeleton of the
Python f-strings; interpolated numeric details are elided. -/
structure SellRun where
  message : String
  quoteCalls : Nat
  quotedAmount : Option Int
  deriving DecidableEq, Repr

/-- execute_sell message: wallet address shorter than 32 characters. -/
def sellPubkeyShortMsg : String := "❌ Ошибка: Слишком короткий адрес кошелька"

/-- execute_sell message: wallet address fails base58 decoding. -/
def sellPubkeyB58Msg : String := "❌ Ошибка: Адрес кошелька не в формате base58"

/-- execute_sell message: decoded wallet address is not 32 bytes. -/
def sellPubkeyDecodedLenMsg : String :=
  "❌ Ошибка: Неверная длина декодированного адреса кошелька"

/-- execute_sell message: PublicKey rejects the wallet address. -/
def sellPubkeyInvalidMsg : String := "❌ Ошибка: Невалидный адрес кошелька"

/-- execute_sell message: PublicKey rejects the token address. -/
def sellTokenInvalidMsg : String := "❌ Ошибка: Невалидный адрес токена"

/-- execute_sell message: token balance lookup returned zero (or failed). -/
def sellNoBalanceMsg : String := "❌ Ошибка: Не удалось получить баланс токена"

/-- execute_sell message: amount conversion failed or exceeded the 10^18
sanity bound. -/
def sellAmountFormatMsg : String := "❌ Ошибка: Неверный формат суммы"

/-- execute_sell message: requested raw amount exceeds the token balance. -/
def sellInsufficientBalanceMsg : String := "❌ Ошибка: Недостаточно токенов"

/-- execute_sell message: no viable route (falsy route or empty routePlan). -/
def sellNoRouteMsg : String :=
  "❌ Ошибка: Не удалось найти маршрут для продажи токена"

/-- execute_sell message: perform_swap produced a falsy signature. -/
def sellNoSignatureMsg : String :=
  "❌ Ошибка: Не удалось получить signature транзакции"

/-- From src/services/jupiter_service.py execute_sell (lines 779-795): the
inner except handler mapping an exception message to a user-facing string by
substring matching (the first four tests are on the lowercased message);
every branch yields a string starting with ❌. -/
def classify_sell_error (msg : String) : String :=
  if strContains msg.toLower "insufficient funds" ∨
      strContains msg.toLower "not enough lamports" then
    "❌ Ошибка: Недостаточно средств для выполнения операции"
  else if strContains msg.toLower "invalid token" ∨
      strContains msg.toLower "invalid mint" then
    "❌ Ошибка: Неверный адрес токена"
  else if strContains msg.toLower "slippage exceeded" then
    "❌ Ошибка: Превышен порог проскальзывания. Попробуйте еще раз"
  else if strContains msg.toLower "liquidity" then
    "❌ Ошибка: Недостаточная ликвидность для продажи. Попробуйте уменьшить сумму"
  else if strContains msg "Custom: 1" then
    "❌ Ошибка: Недостаточная ликвидность в пуле для продажи токена"
  else
    "❌ Ошибка при продаже токена: " ++ msg

/-- The quote-and-swap tail of execute_sell (lines 727-795): one
get_best_route call with the guarded raw amount, the routePlan check, the
perform_swap call and the signature handling, with the inner except handler
classifying any exception from either call. -/
def sellQuoteAndSwap (raw : Int)
    (routeResult : Except String (Option (List Unit)))
    (swapResult : Except String (Option String)) : SellRun :=
  match routeResult with
  | .error e => ⟨classify_sell_error e, 1, some raw⟩
  | .ok none => ⟨sellNoRouteMsg, 1, some raw⟩
  | .ok (some plan) =>
    if plan.isEmpty then ⟨sellNoRouteMsg, 1, some raw⟩
    else
      match swapResult with
      | .error e => ⟨classify_sell_error e, 1, some raw⟩
      | .ok sig =>
        if sig.getD "" = "" then ⟨sellNoSignatureMsg, 1, some raw⟩
        else
          ⟨"https://solscan.io/tx/" ++ sig.getD "", 1, some raw⟩

/-- From src/services/jupiter_service.py execute_sell (lines 586-799).
Oracles: b58DecodedLen is the byte length from base58-decoding the wallet
address (none when decoding raises); pubkeyValid and tokenValid are the
PublicKey parse outcomes; token_balance_raw and token_decimals come from
get_token_balance (a failed lookup surfaces as balance 0); routeResult is the
get_best_route outcome (error = exception, ok none = falsy route, ok a list =
its routePlan entries); swapResult is the perform_swap outcome (ok none = a
falsy signature).  The guard sequence before any quote request: wallet checks,
token check, nonzero balance, amount conversion with the 10^18 bound, the
insufficient-balance check, then the 0.01-token buffer cap. -/
def execute_sell (user_pubkey : String) (b58DecodedLen : Option Nat)
    (pubkeyValid tokenValid : Bool) (token_balance_raw token_decimals : Nat)
    (amount : AmountArg) (routeResult : Except String (Option (List Unit)))
    (swapResult : Except String (Option String)) : SellRun :=
  if user_pubkey.length < 32 then ⟨sellPubkeyShortMsg, 0, none⟩
  else
    match b58DecodedLen with
    | none => ⟨sellPubkeyB58Msg, 0, none⟩
    | some n =>
      if n ≠ 32 then ⟨sellPubkeyDecodedLenMsg, 0, none⟩
      else if pubkeyValid = false then ⟨sellPubkeyInvalidMsg, 0, none⟩
      else if tokenValid = false then ⟨sellTokenInvalidMsg, 0, none⟩
      else if token_balance_raw = 0 then ⟨sellNoBalanceMsg, 0, none⟩
      else
        match rawAmountOf amount token_decimals with
        | none => ⟨sellAmountFormatMsg, 0, none⟩
        | some raw0 =>
          if raw0 > 10 ^ 18 then ⟨sellAmountFormatMsg, 0, none⟩
          else if raw0 > (token_balance_raw : Int) then
            ⟨sellInsufficientBalanceMsg, 0, none⟩
          else
            let mb : Int := minBalanceRaw token_decimals
            let raw : Int :=
              if (token_balance_raw : Int) - raw0 < mb then
                (token_balance_raw : Int) - mb
              else raw0
            sellQuoteAndSwap raw routeResult swapResult

/-- Claim C5: for all positive amount and any decimals, converting to
smallest units with to_lamports (floor of amount times 10 ^ decimals) and
back with from_lamports (raw divided by 10 ^ decimals) yields a value within
one smallest unit of the original amount. -/
theorem to_from_lamports_round_trip (amount : ℚ) (decimals : Nat)
    (h : 0 < amount) :
    ∃ v, from_lamports (to_lamports amount decimals) decimals = some v ∧
      |v - amount| ≤ 1 / 10 ^ decimals := by
  have hpow : (0 : ℚ) < 10 ^ decimals := by positivity
  set x : ℚ := amount * 10 ^ decimals with hx
  have hxpos : 0 < x := by positivity
  have hto : to_lamports amount decimals = ⌊x⌋ := by
    simp [to_lamports, not_le.mpr h]
  have hfloor_nonneg : (0 : Int) ≤ ⌊x⌋ := Int.floor_nonneg.mpr hxpos.le
  refine ⟨(⌊x⌋ : ℚ) / 10 ^ decimals, ?_, ?_⟩
  · simp [from_lamports, hto, not_lt.mpr hfloor_nonneg]
  · have h1 : (⌊x⌋ : ℚ) ≤ x := Int.floor_le x
    have h2 : x - 1 < (⌊x⌋ : ℚ) := Int.sub_one_lt_floor x
    have hkey : (⌊x⌋ : ℚ) / 10 ^ decimals - amount = ((⌊x⌋ : ℚ) - x) / 10 ^ decimals := by
      rw [sub_div, hx]
      congr 1
      field_simp
    rw [hkey, abs_div, abs_of_pos hpow]
    have habs : |(⌊x⌋ : ℚ) - x| ≤ 1 := by
      rw [abs_le]
      constructor <;> linarith
    gcongr

/-- Witness for C5 at amount 3/2, decimals 1. -/
theorem to_from_lamports_round_trip_witness :
    (0 : ℚ) < 3 / 2 ∧
    ∃ v, from_lamports (to_lamports (3 / 2) 1) 1 = some v ∧
      |v - 3 / 2| ≤ 1 / 10 ^ 1 :=
  ⟨by norm_num, to_from_lamports_round_trip (3 / 2) 1 (by norm_num)⟩

/-- Claim C6: for every amount at most zero and any decimals, to_lamports
returns 0 and does not raise (the embedding is total on numeric inputs). -/
theorem to_lamports_nonpositive_zero (amount : ℚ) (decimals : Nat)
    (h : amount ≤ 0) : to_lamports amount decimals = 0 := by
  simp [to_lamports, h]

/-- Witness for C6 at amount 0, decimals 5. -/
theorem to_lamports_nonpositive_zero_witness :
    (0 : ℚ) ≤ 0 ∧ to_lamports 0 5 = 0 :=
  ⟨le_refl 0, to_lamports_nonpositive_zero 0 5 (le_refl 0)⟩

/-- Claim C10: when Fernet decryption fails, decrypt_private_key returns the
input unchanged exactly when its character length lies in [40, 90], and
re-raises the decryption exception otherwise; a successful decryption is
returned as is. -/
theorem decrypt_private_key_fallback (key : String) :
    (40 ≤ key.length ∧ key.length ≤ 90 →
      decrypt_private_key none key = some key)
    ∧ (key.length < 40 ∨ 90 < key.length →
      decrypt_private_key none key = none)
    ∧ (∀ r, decrypt_private_key (some r) key = some r) := by
  refine ⟨fun h => ?_, fun h => ?_, fun r => rfl⟩
  · simp [decrypt_private_key, h.1, h.2]
  · rcases h with h | h <;> simp [decrypt_private_key] <;> omega

/-- Witness for C10: a 44-character undecryptable key is passed through, a
5-character one propagates the exception. -/
theorem decrypt_private_key_fallback_witness :
    decrypt_private_key none "AAAAAAAAAAAAAAAAAAAAAAAAAAAAAAAAAAAAAAAAAAAA" =
      some "AAAAAAAAAAAAAAAAAAAAAAAAAAAAAAAAAAAAAAAAAAAA" ∧
    decrypt_private_key none "AAAAA" = none :=
  ⟨(decrypt_private_key_fallback "AAAAAAAAAAAAAAAAAAAAAAAAAAAAAAAAAAAAAAAAAAAA").1
      (by constructor <;> decide),
    (decrypt_private_key_fallback "AAAAA").2.1 (Or.inl (by decide))⟩

/-- Claim C3 (code bug): with the default max_retries = 3 and every attempt
failing with a rate-limit ("429") error, send_transaction_with_retry backs
off 2, 4, 6 seconds and then falls off the end of the loop, silently
returning None instead of raising a submission-failed error; by contrast,
three non-rate-limit errors back off 1 second twice and raise the generic
exhaustion message, which does not carry the last error. -/
theorem send_transaction_with_retry_rate_limit_returns_none :
    send_transaction_with_retry (fun _ => .rateLimited) 3 =
      ⟨.noneReturn, [2, 4, 6]⟩ ∧
    send_transaction_with_retry (fun _ => .otherError "boom") 3 =
      ⟨.raised (submitFailMsg 3), [1, 1]⟩ :=
  ⟨rfl, rfl⟩

/-- Claim C7 (counterexample): a successful getTokenSupply query for a token
does not populate any cache (the state is unchanged), and a later call for
the same token issues another RPC query and falls back to the default 9 when
that query fails, instead of returning the previously seen value 6. -/
theorem get_token_decimals_counterexample :
    get_token_decimals [] "MINT" (some 6) = (6, [], 1) ∧
    get_token_decimals [] "MINT" none = (9, [], 1) ∧ (6 : Nat) ≠ 9 :=
  ⟨rfl, rfl, by decide⟩

/-- Claim C7 (amended): get_token_decimals performs no caching; every call
issues exactly one RPC query and leaves the process state unchanged,
returning the queried decimals on success and the network default 9 on any
query failure. -/
theorem get_token_decimals_stateless (cache : DecCache) (token : String)
    (d : Nat) :
    get_token_decimals cache token (some d) = (d, cache, 1) ∧
    get_token_decimals cache token none = (9, cache, 1) :=
  ⟨rfl, rfl⟩

/-- Claim C8: send_spl_token fails before any network call when the
destination address does not parse (zero network calls recorded in the
error), and when the recipient associated token account is missing the
account-creation instruction is placed before the transfer instruction in
the one transaction, so both are submitted atomically. -/
theorem send_spl_token_guard_and_atomicity :
    (∀ (mintValid destExists : Bool) (decimals : Nat) (amount : ℚ),
      send_spl_token false mintValid decimals destExists amount =
        .error ("invalid recipient pubkey", 0))
    ∧ (∀ (decimals : Nat) (amount : ℚ),
      send_spl_token true true decimals false amount =
        .ok [.createAssociatedTokenAccount,
          .transferInstr (ratTrunc (amount * 10 ^ decimals))])
    ∧ (∀ (decimals : Nat) (amount : ℚ),
      send_spl_token true true decimals true amount =
        .ok [.transferInstr (ratTrunc (amount * 10 ^ decimals))]) :=
  ⟨fun _ _ _ _ => rfl, fun _ _ => rfl, fun _ _ => rfl⟩

/-- When every quote and build succeeds and every submission fails, the
retry loop of perform_swap runs the full cycle once per remaining attempt
and ends with the submission error. -/
theorem performSwapGo_all_send_fail (q b : Nat → String) :
    ∀ (r a : Nat),
      performSwapGo (fun i => some (q i)) (fun i => some (b i)) (fun _ => none)
        a (r + 1) = ⟨r + 1, r + 1, r + 1, .err swapSendFailMsg⟩ := by
  intro r
  induction r with
  | zero => intro a; rfl
  | succ n ih =>
    intro a
    rw [performSwapGo]
    dsimp only
    rw [if_neg (Nat.succ_ne_zero n), ih (a + 1)]

/-- Claim C2: when every submission attempt fails, perform_swap retries the
entire quote, build, submit cycle, one freshly built aggregator transaction
(hence a fresh blockhash anchor) per submission attempt, for exactly
max_retries attempts (default 2), and ends with the submission error; a
submission that fails once and then succeeds still rebuilds the whole cycle
and returns the second signature. -/
theorem perform_swap_submission_retry (q b : Nat → String) (mr : Nat) :
    (perform_swap (fun i => some (q i)) (fun i => some (b i)) (fun _ => none)
        (mr + 1) = ⟨mr + 1, mr + 1, mr + 1, .err swapSendFailMsg⟩)
    ∧ (perform_swap (fun i => some (q i)) (fun i => some (b i)) (fun _ => none)
        = ⟨2, 2, 2, .err swapSendFailMsg⟩)
    ∧ (∀ s : String,
        perform_swap (fun i => some (q i)) (fun i => some (b i))
          (fun i => if i = 0 then none else some s) = ⟨2, 2, 2, .sig s⟩) :=
  ⟨performSwapGo_all_send_fail q b mr 0,
    performSwapGo_all_send_fail q b 1 0,
    fun _ => rfl⟩

/-- Claim C4 (counterexample): slippage 100 is far above MAX_SLIPPAGE, yet
get_best_route does not raise a validation error: it proceeds to issue the
aggregator HTTP request with slippageBps = int(100 * 100). -/
theorem get_best_route_no_slippage_check :
    MAX_SLIPPAGE < 100 ∧
    get_best_route true 100 = .httpRequest (ratTrunc (100 * 100)) :=
  ⟨by norm_num [MAX_SLIPPAGE], rfl⟩

/-- Claim C4 (amended): the [0.1, 10.0] range check lives in
validate_slippage, which rejects an out-of-range value with a ValueError and
never retries it; get_best_route itself performs no slippage range check
before contacting the aggregator, validating only the output mint address,
so an out-of-range slippage reaches the HTTP request unchanged. -/
theorem slippage_validation_location (s : ℚ)
    (h : s < MIN_SLIPPAGE ∨ MAX_SLIPPAGE < s) :
    validate_slippage (some s) = .error slippageRangeMsg ∧
    get_best_route true s = .httpRequest (ratTrunc (s * 100)) := by
  constructor
  · simp only [validate_slippage]
    rw [if_pos h]
  · rfl

/-- Witness for C4 amended at slippage 100. -/
theorem slippage_validation_location_witness :
    ((100 : ℚ) < MIN_SLIPPAGE ∨ MAX_SLIPPAGE < 100) ∧
    (validate_slippage (some 100) = .error slippageRangeMsg ∧
      get_best_route true 100 = .httpRequest (ratTrunc (100 * 100))) :=
  ⟨Or.inr (by norm_num [MAX_SLIPPAGE]),
    slippage_validation_location 100 (Or.inr (by norm_num [MAX_SLIPPAGE]))⟩

/-- Once the balance guard of execute_sell has passed, the quote request is
made exactly once and carries the guarded raw amount, whatever the route and
swap oracles return. -/
theorem sellQuoteAndSwap_trace (raw : Int)
    (r : Except String (Option (List Unit)))
    (s : Except String (Option String)) :
    (sellQuoteAndSwap raw r s).quotedAmount = some raw ∧
    (sellQuoteAndSwap raw r s).quoteCalls = 1 := by
  unfold sellQuoteAndSwap
  rcases r with e | _ | plan
  · exact ⟨rfl, rfl⟩
  · exact ⟨rfl, rfl⟩
  · dsimp only
    split
    · exact ⟨rfl, rfl⟩
    · rcases s with e | sig
      · exact ⟨rfl, rfl⟩
      · dsimp only
        split <;> exact ⟨rfl, rfl⟩

/-- Claim C1 (amended): for a sell request that passes the wallet and token
checks, with a positive balance lookup and a requested integer raw amount
within the 10^18 sanity bound: a request exceeding the balance returns the
insufficient-balance error with zero quote calls, and an affordable request
reaches the quoter with an amount never exceeding the balance, capped to
balance minus the 0.01-token buffer whenever the sale would leave less than
that buffer. -/
theorem execute_sell_balance_guard (pk : String) (bal d : Nat) (raw : Int)
    (route : Except String (Option (List Unit)))
    (swap : Except String (Option String))
    (hpk : 32 ≤ pk.length) (hbal : 0 < bal) (h18 : raw ≤ 10 ^ 18) :
    ((bal : Int) < raw →
      execute_sell pk (some 32) true true bal d (.intAmount raw) route swap =
        ⟨sellInsufficientBalanceMsg, 0, none⟩)
    ∧ (raw ≤ (bal : Int) →
      ∃ a, (execute_sell pk (some 32) true true bal d (.intAmount raw) route
          swap).quotedAmount = some a ∧ a ≤ (bal : Int) ∧
        ((bal : Int) - raw < (minBalanceRaw d : Int) →
          a = (bal : Int) - minBalanceRaw d)) := by
  have hlen : ¬ pk.length < 32 := not_lt.mpr hpk
  have hne : ¬ bal = 0 := Nat.pos_iff_ne_zero.mp hbal
  have h18e : ¬ (1000000000000000000 : Int) < raw := by
    norm_num at h18
    omega
  constructor
  · intro hlt
    simp [execute_sell, rawAmountOf, hlen, hne, h18e, hlt]
  · intro hle
    have hnlt : ¬ raw > (bal : Int) := not_lt.mpr hle
    simp [execute_sell, rawAmountOf, hlen, hne, h18e, hnlt]
    by_cases hc : (bal : Int) - raw < (minBalanceRaw d : Int)
    · rw [if_pos hc]
      refine ⟨(bal : Int) - minBalanceRaw d,
        (sellQuoteAndSwap_trace _ route swap).1, ?_, fun _ => rfl⟩
      omega
    · rw [if_neg hc]
      exact ⟨raw, (sellQuoteAndSwap_trace _ route swap).1, hle,
        fun hcc => absurd hcc hc⟩

/-- Witness for C1 amended: balance 5, request 7 fails with the
insufficient-balance message and zero quote calls. -/
theorem execute_sell_balance_guard_witness :
    execute_sell "AAAAAAAAAAAAAAAAAAAAAAAAAAAAAAAA" (some 32) true true 5 0
      (.intAmount 7) (.ok (some [()])) (.ok (some "sig")) =
      ⟨sellInsufficientBalanceMsg, 0, none⟩ :=
  (execute_sell_balance_guard "AAAAAAAAAAAAAAAAAAAAAAAAAAAAAAAA" 5 0 7
      (.ok (some [()])) (.ok (some "sig"))
      (by decide) (by decide) (by norm_num)).1 (by norm_num)

/-- Claim C1 (counterexample): a request whose raw amount 10^18 + 1 exceeds
both the sanity bound and the balance 5 is rejected with the amount-format
error, not the insufficient-balance error the claim promises for every
over-balance request (the quoter is still never invoked). -/
theorem execute_sell_balance_guard_counterexample :
    (5 : Int) < 10 ^ 18 + 1 ∧
    execute_sell "AAAAAAAAAAAAAAAAAAAAAAAAAAAAAAAA" (some 32) true true 5 0
      (.intAmount (10 ^ 18 + 1)) (.ok (some [()])) (.ok (some "sig")) =
      ⟨sellAmountFormatMsg, 0, none⟩ ∧
    sellAmountFormatMsg ≠ sellInsufficientBalanceMsg := by
  refine ⟨by norm_num, ?_, by decide⟩
  have hlen : ¬ ("AAAAAAAAAAAAAAAAAAAAAAAAAAAAAAAA" : String).length < 32 := by
    decide
  simp [execute_sell, rawAmountOf, hlen]

/-- The shape every string returned by execute_swap and execute_sell has:
either a Solscan transaction URL or a ❌-prefixed error message. -/
def IsOutcomeString (m : String) : Prop :=
  (∃ s, m = "https://solscan.io/tx/" ++ s) ∨ ∃ s, m = "❌" ++ s

/-- The generic fallback of the execute_swap error classifier keeps the ❌
prefix in front of the propagated message. -/
theorem errConcat_swap (msg : String) :
    ∃ s, "❌ Ошибка: " ++ msg = "❌" ++ s :=
  ⟨" Ошибка: " ++ msg, by
    rw [(by decide : ("❌ Ошибка: " : String) = "❌" ++ " Ошибка: "),
      String.append_assoc]⟩

/-- The generic fallback of the execute_sell error classifier keeps the ❌
prefix in front of the propagated message. -/
theorem errConcat_sell (msg : String) :
    ∃ s, "❌ Ошибка при продаже токена: " ++ msg = "❌" ++ s :=
  ⟨" Ошибка при продаже токена: " ++ msg, by
    rw [(by decide : ("❌ Ошибка при продаже токена: " : String) =
      "❌" ++ " Ошибка при продаже токена: "), String.append_assoc]⟩

/-- Every branch of the execute_swap error classifier yields a ❌-prefixed
message. -/
theorem classify_swap_error_shape (msg : String) :
    ∃ s, classify_swap_error msg = "❌" ++ s := by
  unfold classify_swap_error
  split
  · exact ⟨" Ошибка транзакции: Недостаточная ликвидность или слишком маленькая сумма обмена",
      by decide⟩
  · split
    · exact ⟨" Ошибка транзакции: Слишком высокое проскальзывание", by decide⟩
    · split
      · exact ⟨" Ошибка транзакции: Недостаточно средств для выполнения обмена",
          by decide⟩
      · exact errConcat_swap msg

/-- Every branch of the execute_sell error classifier yields a ❌-prefixed
message. -/
theorem classify_sell_error_shape (msg : String) :
    ∃ s, classify_sell_error msg = "❌" ++ s := by
  unfold classify_sell_error
  split
  · exact ⟨" Ошибка: Недостаточно средств для выполнения операции", by decide⟩
  · split
    · exact ⟨" Ошибка: Неверный адрес токена", by decide⟩
    · split
      · exact ⟨" Ошибка: Превышен порог проскальзывания. Попробуйте еще раз",
          by decide⟩
      · split
        · exact ⟨" Ошибка: Недостаточная ликвидность для продажи. Попробуйте уменьшить сумму",
            by decide⟩
        · split
          · exact ⟨" Ошибка: Недостаточная ликвидность в пуле для продажи токена",
              by decide⟩
          · exact errConcat_sell msg

/-- The message of the quote-and-swap tail of execute_sell is always a
Solscan URL or a ❌-prefixed error. -/
theorem sellQuoteAndSwap_shape (raw : Int)
    (r : Except String (Option (List Unit)))
    (s : Except String (Option String)) :
    IsOutcomeString (sellQuoteAndSwap raw r s).message := by
  unfold sellQuoteAndSwap
  rcases r with e | _ | plan
  · exact Or.inr (classify_sell_error_shape e)
  · exact Or.inr ⟨" Ошибка: Не удалось найти маршрут для продажи токена",
      rfl⟩
  · dsimp only
    split
    · exact Or.inr ⟨" Ошибка: Не удалось найти маршрут для продажи токена",
        rfl⟩
    · rcases s with e | sig
      · exact Or.inr (classify_sell_error_shape e)
      · dsimp only
        split
        · exact Or.inr ⟨" Ошибка: Не удалось получить signature транзакции",
            rfl⟩
        · exact Or.inl ⟨sig.getD "", rfl⟩

/-- Every return path of execute_sell yields a Solscan URL or a ❌-prefixed
message. -/
theorem execute_sell_shape (pk : String) (b58 : Option Nat)
    (pv tv : Bool) (bal d : Nat) (amt : AmountArg)
    (route : Except String (Option (List Unit)))
    (swap : Except String (Option String)) :
    IsOutcomeString (execute_sell pk b58 pv tv bal d amt route swap).message := by
  simp only [execute_sell]
  repeat' split
  all_goals first
    | exact sellQuoteAndSwap_shape _ _ _
    | exact Or.inr ⟨" Ошибка: Слишком короткий адрес кошелька", rfl⟩
    | exact Or.inr ⟨" Ошибка: Адрес кошелька не в формате base58", rfl⟩
    | exact Or.inr ⟨" Ошибка: Неверная длина декодированного адреса кошелька",
        rfl⟩
    | exact Or.inr ⟨" Ошибка: Невалидный адрес кошелька", rfl⟩
    | exact Or.inr ⟨" Ошибка: Невалидный адрес токена", rfl⟩
    | exact Or.inr ⟨" Ошибка: Не удалось получить баланс токена", rfl⟩
    | exact Or.inr ⟨" Ошибка: Неверный формат суммы", rfl⟩
    | exact Or.inr ⟨" Ошибка: Недостаточно токенов", rfl⟩

/-- Every return path of execute_swap yields a Solscan URL or a ❌-prefixed
message. -/
theorem execute_swap_shape (om ia : Option String)
    (res : Except String String) :
    IsOutcomeString (execute_swap om ia res) := by
  unfold execute_swap
  split
  · exact Or.inr (classify_swap_error_shape _)
  · rcases res with e | sig
    · exact Or.inr (classify_swap_error_shape e)
    · exact Or.inl ⟨extract_signature sig, rfl⟩

/-- Claim C9: execute_swap and execute_sell always return a string, never
propagating an exception: on success it is the Solscan URL derived from the
submission signature ("https://solscan.io/tx/" followed by the extracted
signature), and on every failure a ❌-prefixed error message. -/
theorem executors_return_outcome_strings :
    (∀ (om ia : Option String) (res : Except String String),
      IsOutcomeString (execute_swap om ia res))
    ∧ (∀ (pk : String) (b58 : Option Nat) (pv tv : Bool) (bal d : Nat)
        (amt : AmountArg) (route : Except String (Option (List Unit)))
        (swap : Except String (Option String)),
      IsOutcomeString (execute_sell pk b58 pv tv bal d amt route swap).message)
    ∧ (∀ (om ia sig : String), ¬ om = "" → ¬ ia = "" →
      execute_swap (some om) (some ia) (.ok sig) =
        "https://solscan.io/tx/" ++ extract_signature sig)
    ∧ (∀ (pk : String) (bal d : Nat) (raw : Int) (rest : List Unit)
        (sig : String), 32 ≤ pk.length → 0 < bal → raw ≤ 10 ^ 18 →
        raw ≤ (bal : Int) → ¬ sig = "" →
      (execute_sell pk (some 32) true true bal d (.intAmount raw)
        (.ok (some (() :: rest))) (.ok (some sig))).message =
        "https://solscan.io/tx/" ++ sig) := by
  refine ⟨execute_swap_shape, execute_sell_shape, fun om ia sig hom hia => ?_,
    fun pk bal d raw rest sig hpk hbal h18 hle hsig => ?_⟩
  · simp [execute_swap, hom, hia]
  · have hlen : ¬ pk.length < 32 := not_lt.mpr hpk
    have hne : ¬ bal = 0 := Nat.pos_iff_ne_zero.mp hbal
    have h18e : ¬ (1000000000000000000 : Int) < raw := by
      norm_num at h18
      omega
    have hnlt : ¬ raw > (bal : Int) := not_lt.mpr hle
    simp [execute_sell, sellQuoteAndSwap, rawAmountOf, hlen, hne, h18e, hnlt,
      hsig]

/-- Witness for C9: a concrete successful swap and a concrete successful
sell both return the Solscan URL of the submitted signature. -/
theorem executors_return_outcome_strings_witness :
    execute_swap (some "Mint") (some "1000") (.ok "abc123") =
      "https://solscan.io/tx/" ++ extract_signature "abc123" ∧
    (execute_sell "AAAAAAAAAAAAAAAAAAAAAAAAAAAAAAAA" (some 32) true true 1000
      0 (.intAmount 5) (.ok (some [()])) (.ok (some "abc123"))).message =
      "https://solscan.io/tx/" ++ "abc123" :=
  ⟨executors_return_outcome_strings.2.2.1 "Mint" "1000" "abc123"
      (by decide) (by decide),
    executors_return_outcome_strings.2.2.2 "AAAAAAAAAAAAAAAAAAAAAAAAAAAAAAAA"
      1000 0 5 [] "abc123" (by decide) (by decide) (by norm_num) (by norm_num)
      (by decide)⟩
